import Mathlib

/-
Verification of the retrieval-augmented answer backend (`backend/app.py`).

The Python source is shallowly embedded: Python strings handled by the
chunking pipeline are `List Char`; prompt strings are Lean `String`s;
filesystem and HTTP effects are passed in explicitly as values (file
contents as `Option (List Char)`, the HTTP outcome of `requests.post` as
an inductive `HttpOutcome`, success/failure of the external chromadb and
shutil calls as boolean flags in `StoreEnv`).  Every function is total:
Python `try/except` blocks become case analysis on those injected
outcomes.
-/

namespace AskAndy

/-- Whitespace characters stripped by Python `str.strip()` (ASCII range,
which is all the source document pipeline relies on). -/
def pyIsSpace (c : Char) : Bool :=
  c = ' ' || c = '\t' || c = '\n' || c = '\r' || c = '\x0b' || c = '\x0c'

/-- Python truthiness of `s.strip()` negated: a string is blank when
`s.strip()` is empty, i.e. every character is whitespace (this includes
the empty string, matching `"".strip()` being falsy). -/
def pyIsBlank (l : List Char) : Bool := l.all pyIsSpace

/-- Python `range(0, stop, step)`: the multiples of `step` below `stop`,
i.e. `k * step` for `k < ceil(stop / step)`. -/
def pyRange (stop step : Nat) : List Nat :=
  (List.range ((stop + step - 1) / step)).map (fun k => k * step)

/-- Python slice `l[i:j]` for `0 ≤ i ≤ j` (clamped at the end of the
list, as in Python). -/
def pySlice (l : List Char) (i j : Nat) : List Char := (l.drop i).take (j - i)

/-- `app.py` line 159:
`chunks = [content[i:i+chunk_size] for i in range(0, len(content), chunk_size)]`. -/
def rawChunks (content : List Char) (chunk_size : Nat) : List (List Char) :=
  (pyRange content.length chunk_size).map (fun i => pySlice content i (i + chunk_size))

/-- `app.py` lines 158-160: the full chunking step — fixed-size slices,
then `chunks = [chunk for chunk in chunks if chunk.strip()]`. -/
def chunk (content : List Char) (chunk_size : Nat) : List (List Char) :=
  (rawChunks content chunk_size).filter (fun c => !(pyIsBlank c))

/-! Basic facts about the slicing step. -/

theorem pyRange_zero (step : Nat) : pyRange 0 step = [] := by
  unfold pyRange
  have h : (0 + step - 1) / step = 0 := by
    cases step with
    | zero => simp
    | succ n => exact Nat.div_eq_of_lt (by omega)
  rw [h]
  rfl

theorem rawChunks_nil (s : Nat) : rawChunks [] s = [] := by
  simp [rawChunks, pyRange_zero]

/-- Chunk-count recurrence for `ceil(n / s)` written as `(n + s - 1) / s`. -/
theorem chunkCount_succ (n s : Nat) (hs : 0 < s) (hn : 0 < n) :
    (n + s - 1) / s = ((n - s) + s - 1) / s + 1 := by
  rcases le_or_lt n s with h | h
  · have hL : (n + s - 1) / s = 1 :=
      Nat.div_eq_of_lt_le (by omega) (by omega)
    have h0 : n - s = 0 := by omega
    have hR : (0 + s - 1) / s = 0 := Nat.div_eq_of_lt (by omega)
    rw [hL, h0, hR]
  · have e1 : n + s - 1 = (n - 1) + s := by omega
    have e2 : (n - s) + s - 1 = (n - s - 1) + s := by omega
    have e3 : n - 1 = (n - s - 1) + s := by omega
    rw [e1, e2, Nat.add_div_right _ hs, Nat.add_div_right _ hs, e3,
      Nat.add_div_right _ hs]

theorem rawChunks_length (t : List Char) (s : Nat) :
    (rawChunks t s).length = (t.length + s - 1) / s := by
  simp [rawChunks, pyRange]

/-- Unfolding equation: for a non-empty input the slicing step peels off
the first `s` characters and recurses on the rest. -/
theorem rawChunks_cons (s : Nat) (hs : 0 < s) (t : List Char) (ht : t ≠ []) :
    rawChunks t s = t.take s :: rawChunks (t.drop s) s := by
  have hn : 0 < t.length := List.length_pos.mpr ht
  have hdrop : (t.drop s).length = t.length - s := List.length_drop s t
  unfold rawChunks pyRange
  rw [hdrop, chunkCount_succ t.length s hs hn, List.range_succ_eq_map]
  simp only [List.map_cons, List.map_map, Function.comp]
  refine congrArg₂ List.cons ?_ ?_
  · simp [pySlice]
  · have hfun : ∀ k : Nat, pySlice t ((k + 1) * s) ((k + 1) * s + s)
        = pySlice (t.drop s) (k * s) (k * s + s) := by
      intro k
      simp only [pySlice, Nat.add_sub_cancel_left, List.drop_drop]
      have h1 : k * s + s = (k + 1) * s := (Nat.succ_mul k s).symm
      rw [Nat.add_comm s (k * s), h1]
    exact List.map_congr_left (fun k _ => hfun k)

theorem rawChunks_flatten (s : Nat) (hs : 0 < s) (t : List Char) :
    (rawChunks t s).flatten = t := by
  have key : ∀ n (u : List Char), u.length ≤ n → (rawChunks u s).flatten = u := by
    intro n
    induction n with
    | zero =>
      intro u hu
      have : u = [] := List.length_eq_zero.mp (Nat.le_zero.mp hu)
      subst this
      simp [rawChunks_nil]
    | succ n ih =>
      intro u hu
      cases u with
      | nil => simp [rawChunks_nil]
      | cons a l =>
        rw [rawChunks_cons s hs (a :: l) (by simp)]
        rw [List.flatten_cons, ih ((a :: l).drop s)
          (by rw [List.length_drop]; simp only [List.length_cons] at hu ⊢; omega)]
        exact List.take_append_drop s (a :: l)
  exact key t.length t (Nat.le_refl _)

/-- Every non-final slice has length exactly `s`. -/
theorem rawChunks_get_length (t : List Char) (s : Nat) (hs : 0 < s) (i : Nat)
    (h : i + 1 < (rawChunks t s).length) :
    ((rawChunks t s).get ⟨i, Nat.lt_of_succ_lt h⟩).length = s := by
  have hlen := rawChunks_length t s
  have hi2 : i + 2 ≤ (t.length + s - 1) / s := by omega
  have h2 : (i + 2) * s ≤ t.length + s - 1 := (Nat.le_div_iff_mul_le hs).mp hi2
  have e1 : (i + 2) * s = (i + 1) * s + s := by ring
  have h3 : (i + 1) * s + s ≤ t.length + s - 1 := by omega
  have e2 : (i + 1) * s = i * s + s := by ring
  have h5 : i * s + s ≤ t.length := by omega
  simp only [rawChunks, pyRange, List.get_eq_getElem, List.getElem_map,
    List.getElem_range, pySlice, Nat.add_sub_cancel_left, List.length_take,
    List.length_drop]
  omega

/-- Dropping the whitespace-only slices from the concatenation: joining
the kept slices equals joining all slices with blank ones replaced by the
empty segment. -/
theorem flatten_filter_blank (l : List (List Char)) :
    ((l.filter fun c => !(pyIsBlank c)).flatten)
      = ((l.map fun c => if pyIsBlank c then [] else c).flatten) := by
  induction l with
  | nil => rfl
  | cons c cs ih =>
    cases hc : pyIsBlank c with
    | false => simp [List.filter_cons, hc, List.flatten_cons, ih]
    | true => simp [List.filter_cons, hc, List.flatten_cons, ih]

/-! Chunk store model.  A chromadb collection is a list of
`(id, document)` entries; the persistent database directory and the
collection stored in it form `ChromaState`.  Success and failure of the
external `shutil` / `chromadb` calls are injected through `StoreEnv`. -/

/-- One stored chunk: its id and its document text. -/
abbrev ChromaEntry := String × List Char

/-- Whether the external calls made by `setup_chromadb` / `reset_chroma`
succeed: `rmtreeOk` for `shutil.rmtree`, `clientOk` for the first
`chromadb.PersistentClient` + `list_collections`, `createOk` for the
first `create_collection`, and `client2Ok` / `create2Ok` for the retry
inside the outer `except` block. -/
structure StoreEnv where
  rmtreeOk : Bool
  clientOk : Bool
  createOk : Bool
  client2Ok : Bool
  create2Ok : Bool

/-- The persistent state on disk: whether the `chroma_db` directory
exists, and the `andy_knowledge_base` collection stored in it (if any). -/
structure ChromaState where
  dbExists : Bool
  collection : Option (List ChromaEntry)

/-- `app.py` lines 116-126: the outer `except` handler of
`setup_chromadb` — build a fresh client and `create_collection`; on any
failure return `None` (the unavailable sentinel).  `create_collection`
raises when the collection already exists, which the handler maps to
`None` as well. -/
def setup_fallback (env : StoreEnv) (st : ChromaState) :
    Option (List ChromaEntry) × ChromaState :=
  if env.client2Ok then
    let st2 : ChromaState := { dbExists := true, collection := st.collection }
    match st2.collection with
    | some _ => (none, st2)
    | none =>
      if env.create2Ok then (some [], { st2 with collection := some [] })
      else (none, st2)
  else (none, st)

/-- `app.py` lines 84-126 (`setup_chromadb`): delete any existing
`chroma_db` directory (failure swallowed), build a persistent client,
then `get_collection` (attach) or, when that raises, `create_collection`;
any escaping exception is handled by `setup_fallback`. -/
def setup_chromadb (env : StoreEnv) (st : ChromaState) :
    Option (List ChromaEntry) × ChromaState :=
  let st1 := if st.dbExists && env.rmtreeOk then
      ({ dbExists := false, collection := none } : ChromaState)
    else st
  if env.clientOk then
    let st2 : ChromaState := { dbExists := true, collection := st1.collection }
    match st1.collection with
    | some entries => (some entries, st2)
    | none =>
      if env.createOk then (some [], { st2 with collection := some [] })
      else setup_fallback env st2
  else setup_fallback env st1

/-- `app.py` lines 162-175: the guarded insertion inside
`load_document_to_chroma` — read `collection.get()['ids']`; when empty,
`collection.add(documents=chunks, ids=[f"chunk_0", "chunk_1", ...])`;
otherwise leave the collection untouched. -/
def bulk_insert (col : List ChromaEntry) (chunks : List (List Char)) :
    List ChromaEntry :=
  let existing_ids := col.map Prod.fst
  if existing_ids.isEmpty then
    let ids := (List.range chunks.length).map (fun i => "chunk_" ++ toString i)
    col ++ ids.zip chunks
  else col

/-- `app.py` lines 129-178 (`load_document_to_chroma`), with the
filesystem abstracted: `doc` is the located document content (`none`
when `MLTrainingDoc.txt` was not found).  A missing or whitespace-only
document is a silent no-op; otherwise the content is chunked with
`chunk_size = 1000` and handed to the guarded insert. -/
def load_document_to_chroma (col : List ChromaEntry) (doc : Option (List Char)) :
    List ChromaEntry :=
  match doc with
  | none => col
  | some content =>
    if pyIsBlank content then col
    else bulk_insert col (chunk content 1000)

/-- `app.py` lines 367-391 (`reset_chroma` route): delete the
`chroma_db` directory, re-run `setup_chromadb`, re-ingest the document.
The returned `Bool` is the route's `success` flag (`false` exactly when
an exception escapes, i.e. when the route-level `rmtree` fails); the
`Option` is the new global collection handle. -/
def reset_chroma (env : StoreEnv) (st : ChromaState) (doc : Option (List Char)) :
    Bool × Option (List ChromaEntry) × ChromaState :=
  if st.dbExists && !env.rmtreeOk then (false, none, st)
  else
    let st1 := if st.dbExists then
        ({ dbExists := false, collection := none } : ChromaState)
      else st
    match setup_chromadb env st1 with
    | (some col, st2) =>
      let col2 := load_document_to_chroma col doc
      (true, some col2, { st2 with collection := some col2 })
    | (none, st2) => (true, none, st2)

/-! Retrieval and answer composition. -/

/-- Outcome of `chroma_collection.query(query_texts=[question], n_results=3)`:
either the `results['documents']` field (a list of document lists, one
per query text) or an exception message. -/
inductive QueryOutcome where
  | ok (documents : List (List String))
  | err (message : String)

/-- `app.py` lines 283-300: the context-building step of the `chat`
route.  When the collection handle is absent the query is skipped; a
query exception is swallowed; `results['documents']` and
`results['documents'][0]` are checked for Python truthiness before
joining with newlines.  In every degraded case `context` keeps its
initial value `""`. -/
def retrieve_context (collectionAvailable : Bool) (q : QueryOutcome) : String :=
  if collectionAvailable then
    match q with
    | .err _ => ""
    | .ok documents =>
      match documents with
      | [] => ""
      | d0 :: _ => if d0 = [] then "" else String.intercalate "\n" d0
  else ""

/-- Python `not api_key` on the result of `os.getenv('DEEPSEEK_API_KEY')`:
true when the variable is unset or the empty string. -/
def api_key_missing (apiKey : Option String) : Bool :=
  match apiKey with
  | none => true
  | some k => k == ""

/-- The placeholder credential checked by `load_environment`. -/
def placeholder_api_key : String := "your_deepseek_api_key_here"

/-- `app.py` lines 46-49: the startup credential check of
`load_environment` — `False` when the key is unset, empty, or still the
placeholder. -/
def load_environment_ok (apiKey : Option String) : Bool :=
  match apiKey with
  | none => false
  | some k => !(k == "" || k == placeholder_api_key)

/-- `app.py` line 228: the fixed persona framing of the system message. -/
def persona_base : String :=
  "You are Andy. Answer questions about yourself based on the provided context. If the context doesn\x27t contain relevant information, say you don\x27t have that information rather than making things up."

/-- `app.py` line 232: the clause appended when no context was retrieved. -/
def no_context_clause : String :=
  " Since no specific context was provided, answer based on your general knowledge but identify yourself as Andy."

/-- `app.py` lines 228-232: build `system_content` — the persona framing
plus either `" Context: " ++ context` (Python truthy, i.e. non-empty
context) or the general-knowledge fallback clause. -/
def compose_system_content (context : String) : String :=
  let system_content := persona_base
  if context ≠ "" then system_content ++ (" Context: " ++ context)
  else system_content ++ no_context_clause

/-- The request payload of `app.py` lines 234-242 (the float constant
`temperature = 0.7` is fixed and carried nowhere, so it is omitted). -/
structure ChatPayload where
  model : String
  system_content : String
  user_content : String
  max_tokens : Nat

/-- `app.py` lines 234-242: the payload `ask_deepseek` posts. -/
def ask_deepseek_payload (question context : String) : ChatPayload :=
  { model := "deepseek-chat"
    system_content := compose_system_content context
    user_content := question
    max_tokens := 500 }

/-- Body of an HTTP response from the completion endpoint: `content` is
the result of evaluating `response.json()["choices"][0]["message"]["content"]`
(`Except.error e` when that expression raises, carrying the exception
text), and `text` is `response.text`. -/
structure RespBody where
  content : Except String String
  text : String

/-- Outcome of `requests.post` in `ask_deepseek`: a response with a
status code and body, or a raised exception (timeout, connection error)
carrying `str(e)`. -/
inductive HttpOutcome where
  | resp (status : Nat) (body : RespBody)
  | exn (message : String)

/-- `app.py` lines 218-265 (`ask_deepseek`): guard on `not api_key`,
then map the HTTP outcome to a string — the completion text on 200, a
dedicated message for 401 and 429, `"API Error: Status <s> - <text>"`
otherwise, and `"Network Error: <e>"` for any raised exception
(including a malformed 200 body, whose `KeyError` is caught by the same
handler). -/
def ask_deepseek (apiKey : Option String) (question context : String)
    (out : HttpOutcome) : String :=
  if api_key_missing apiKey then
    "Error: API key not configured. Please check your .env file."
  else
    match out with
    | .resp status body =>
      if status = 200 then
        match body.content with
        | .ok c => c
        | .error e => "Network Error: " ++ e
      else
        let error_msg := "API Error: Status " ++ toString status
        if status = 401 then
          error_msg ++ " - Invalid API key. Please check your DEEPSEEK_API_KEY in .env file."
        else if status = 429 then
          error_msg ++ " - Rate limit exceeded or insufficient credits."
        else error_msg ++ " - " ++ body.text
    | .exn message => "Network Error: " ++ message

/-- The remote completion request `ask_deepseek` issues: `none` when
the function returns at the `not api_key` guard before `requests.post`
(`app.py` lines 220-221), otherwise the payload it posts. -/
def ask_deepseek_request (apiKey : Option String) (question context : String) :
    Option ChatPayload :=
  if api_key_missing apiKey then none
  else some (ask_deepseek_payload question context)

/-- `app.py` lines 268-310 (`chat` route), with the request body parsed:
`questionField` is `data.get('question', '')` before defaulting (`none`
when the key is absent).  An empty question short-circuits with
`success = False`; otherwise the context is retrieved (empty when no
collection handle) and `ask_deepseek`'s string is returned with
`success = True`. -/
def chat (questionField : Option String) (collectionAvailable : Bool)
    (q : QueryOutcome) (apiKey : Option String) (out : HttpOutcome) :
    String × Bool :=
  let question := questionField.getD ""
  if question = "" then ("Please provide a question", false)
  else (ask_deepseek apiKey question (retrieve_context collectionAvailable q) out, true)

/-! Helper lemmas shared by the claim theorems. -/

theorem zip_entry {α β : Type} :
    ∀ (l1 : List α) (l2 : List β) (i : Nat) (h1 : i < l1.length) (h2 : i < l2.length),
      (l1.zip l2)[i]? = some (l1[i], l2[i]) := by
  intro l1
  induction l1 with
  | nil => intro l2 i h1 h2; simp at h1
  | cons a l ih =>
    intro l2 i h1 h2
    cases l2 with
    | nil => simp at h2
    | cons b m =>
      cases i with
      | zero => simp
      | succ j =>
        rw [List.zip_cons_cons, List.getElem?_cons_succ,
          List.getElem_cons_succ, List.getElem_cons_succ]
        exact ih m j (by simpa using h1) (by simpa using h2)

theorem bulk_insert_of_ne_nil (col : List ChromaEntry) (chunks : List (List Char))
    (h : col ≠ []) : bulk_insert col chunks = col := by
  rcases col with _ | ⟨e, col⟩
  · exact absurd rfl h
  · simp [bulk_insert]

theorem bulk_insert_nil_length (chunks : List (List Char)) :
    (bulk_insert [] chunks).length = chunks.length := by
  simp [bulk_insert, List.length_zip]

/-- C1: for every input text `t` and chunk size `s > 0`, the chunking
step cuts `t` into contiguous, non-overlapping slices (their
concatenation gives back `t`), every non-final slice has length exactly
`s`, the kept chunks are exactly the slices that are not whitespace-only
after trimming, and the kept chunks concatenate to `t` with precisely
the whitespace-only segments removed.  Determinism holds by construction
(`chunk` is a function of `t` and `s`). -/
theorem c1_chunking_correct (t : List Char) (s : Nat) (hs : 0 < s) :
    (∀ i (h : i + 1 < (rawChunks t s).length),
        ((rawChunks t s).get ⟨i, Nat.lt_of_succ_lt h⟩).length = s)
    ∧ (rawChunks t s).flatten = t
    ∧ chunk t s = (rawChunks t s).filter (fun c => !(pyIsBlank c))
    ∧ (chunk t s).flatten
        = ((rawChunks t s).map fun c => if pyIsBlank c then [] else c).flatten := by
  refine ⟨fun i h => rawChunks_get_length t s hs i h, rawChunks_flatten s hs t, rfl, ?_⟩
  exact flatten_filter_blank (rawChunks t s)

theorem c1_chunking_correct_witness :
    0 < 2
    ∧ (rawChunks [' ', ' ', 'a', 'b', 'c'] 2).flatten = [' ', ' ', 'a', 'b', 'c']
    ∧ chunk [' ', ' ', 'a', 'b', 'c'] 2
        = (rawChunks [' ', ' ', 'a', 'b', 'c'] 2).filter (fun c => !(pyIsBlank c)) :=
  ⟨by decide, (c1_chunking_correct [' ', ' ', 'a', 'b', 'c'] 2 (by decide)).2.1,
    (c1_chunking_correct [' ', ' ', 'a', 'b', 'c'] 2 (by decide)).2.2.1⟩

/-- C2: the chat operation reports `success = false` exactly when the
question field defaults to the empty string (missing key or empty
value), and then the response is the literal prompting message; for any
non-empty question it reports `success = true` with `ask_deepseek`'s
string (which embeds remote-failure messages) as the response. -/
theorem c2_success_flag (questionField : Option String) (avail : Bool)
    (q : QueryOutcome) (apiKey : Option String) (out : HttpOutcome) :
    ((chat questionField avail q apiKey out).2 = false ↔ questionField.getD "" = "")
    ∧ (questionField.getD "" = "" →
        chat questionField avail q apiKey out = ("Please provide a question", false))
    ∧ (questionField.getD "" ≠ "" →
        chat questionField avail q apiKey out =
          (ask_deepseek apiKey (questionField.getD "")
            (retrieve_context avail q) out, true)) := by
  by_cases h : questionField.getD "" = "" <;> simp [chat, h]

theorem c2_success_flag_witness :
    (some "" : Option String).getD "" = ""
    ∧ chat (some "") true (QueryOutcome.ok []) none (HttpOutcome.exn "timeout") =
        ("Please provide a question", false) :=
  ⟨rfl, (c2_success_flag (some "") true (QueryOutcome.ok []) none
    (HttpOutcome.exn "timeout")).2.1 rfl⟩

/-- C3: with a configured key, `ask_deepseek` maps every outcome of the
remote call to a string and never raises: the completion text on a 200
response, an invalid-credential message on 401, a rate-limit message on
429, a descriptive status message on any other status, and a network
error string on any raised exception or malformed 200 body. -/
theorem c3_answer_error_mapping (apiKey : Option String) (q ctx : String)
    (hk : api_key_missing apiKey = false) :
    (∀ body c, body.content = Except.ok c →
        ask_deepseek apiKey q ctx (HttpOutcome.resp 200 body) = c)
    ∧ (∀ body e, body.content = Except.error e →
        ask_deepseek apiKey q ctx (HttpOutcome.resp 200 body) = "Network Error: " ++ e)
    ∧ (∀ body, ask_deepseek apiKey q ctx (HttpOutcome.resp 401 body) =
        "API Error: Status 401 - Invalid API key. Please check your DEEPSEEK_API_KEY in .env file.")
    ∧ (∀ body, ask_deepseek apiKey q ctx (HttpOutcome.resp 429 body) =
        "API Error: Status 429 - Rate limit exceeded or insufficient credits.")
    ∧ (∀ s body, s ≠ 200 → s ≠ 401 → s ≠ 429 →
        ask_deepseek apiKey q ctx (HttpOutcome.resp s body) =
          "API Error: Status " ++ toString s ++ " - " ++ body.text)
    ∧ (∀ m, ask_deepseek apiKey q ctx (HttpOutcome.exn m) = "Network Error: " ++ m) := by
  refine ⟨?_, ?_, ?_, ?_, ?_, ?_⟩
  · intro body c hc; simp [ask_deepseek, hk, hc]
  · intro body e he; simp [ask_deepseek, hk, he]
  · intro body; simp [ask_deepseek, hk]; rfl
  · intro body; simp [ask_deepseek, hk]; rfl
  · intro s body hs1 hs2 hs3; simp [ask_deepseek, hk, hs1, hs2, hs3]
  · intro m; simp [ask_deepseek, hk]

theorem c3_answer_error_mapping_witness :
    api_key_missing (some "sk-test") = false
    ∧ ask_deepseek (some "sk-test") "Who are you?" ""
        (HttpOutcome.resp 429 ⟨Except.error "KeyError", "quota"⟩) =
        "API Error: Status 429 - Rate limit exceeded or insufficient credits."
    ∧ ask_deepseek (some "sk-test") "Who are you?" "" (HttpOutcome.exn "timed out") =
        "Network Error: timed out" :=
  ⟨by decide,
    (c3_answer_error_mapping (some "sk-test") "Who are you?" "" (by decide)).2.2.2.1
      ⟨Except.error "KeyError", "quota"⟩,
    (c3_answer_error_mapping (some "sk-test") "Who are you?" "" (by decide)).2.2.2.2.2
      "timed out"⟩

theorem rawChunks_mem_subset (t : List Char) (s : Nat) (c : List Char)
    (hc : c ∈ rawChunks t s) : ∀ x ∈ c, x ∈ t := by
  obtain ⟨i, hi, rfl⟩ := List.mem_map.mp hc
  intro x hx
  simp only [pySlice] at hx
  exact List.mem_of_mem_drop (List.mem_of_mem_take hx)

theorem rawChunks_mem_ne_nil (t : List Char) (s : Nat) (hs : 0 < s) (c : List Char)
    (hc : c ∈ rawChunks t s) : c ≠ [] := by
  obtain ⟨i, hi, rfl⟩ := List.mem_map.mp hc
  obtain ⟨k, hk, rfl⟩ := List.mem_map.mp hi
  have hkN : k < (t.length + s - 1) / s := List.mem_range.mp hk
  have h1 : (k + 1) * s ≤ t.length + s - 1 := (Nat.le_div_iff_mul_le hs).mp hkN
  have e : (k + 1) * s = k * s + s := by ring
  have h2 : k * s < t.length := by omega
  simp only [pySlice, Nat.add_sub_cancel_left]
  intro hE
  have hL := congrArg List.length hE
  simp only [List.length_take, List.length_drop, List.length_nil] at hL
  omega

/-- A store environment in which every external call succeeds. -/
def allOkEnv : StoreEnv := ⟨true, true, true, true, true⟩

/-- A persisted state holding a collection with one stored chunk. -/
def storedState : ChromaState := ⟨true, some [("chunk_0", ['h', 'i'])]⟩

/-- C4 counterexample: with every external call succeeding and a
collection already persisted, `setup_chromadb` does NOT attach to it —
the startup cleanup (`shutil.rmtree` at `app.py` lines 91-96) deletes
the database first, so the call returns a fresh empty collection and
the stored chunks are lost. -/
theorem c4_attach_counterexample :
    storedState.collection = some [("chunk_0", ['h', 'i'])]
    ∧ (setup_chromadb allOkEnv storedState).1 = some []
    ∧ some ([] : List ChromaEntry) ≠ some [("chunk_0", ['h', 'i'])] :=
  ⟨rfl, rfl, by decide⟩

/-- C4 amended: `setup_chromadb` first deletes any existing database
directory; when that cleanup runs (directory present and deletion
succeeds) it always returns a fresh empty collection, destroying any
stored chunks.  It attaches to an existing collection, preserving its
chunks, only when there was nothing to delete or the deletion failed;
it creates an empty collection when none is present; and when the
client cannot be built at all it returns the unavailable sentinel
(`none`) instead of raising. -/
theorem c4_open_or_create_amended (env : StoreEnv) (st : ChromaState) :
    (st.dbExists = true → env.rmtreeOk = true → env.clientOk = true →
        env.createOk = true → (setup_chromadb env st).1 = some [])
    ∧ (∀ es, (st.dbExists = false ∨ env.rmtreeOk = false) →
        st.collection = some es → env.clientOk = true →
        (setup_chromadb env st).1 = some es)
    ∧ ((st.dbExists = false ∨ env.rmtreeOk = false) → st.collection = none →
        env.clientOk = true → env.createOk = true →
        (setup_chromadb env st).1 = some [])
    ∧ (env.clientOk = false → env.client2Ok = false →
        (setup_chromadb env st).1 = none) := by
  refine ⟨?_, ?_, ?_, ?_⟩
  · intro h1 h2 h3 h4
    simp [setup_chromadb, h1, h2, h3, h4]
  · intro es hor hcol hc
    rcases hor with h | h <;> simp [setup_chromadb, h, hcol, hc]
  · intro hor hcol hc hcr
    rcases hor with h | h <;> simp [setup_chromadb, h, hcol, hc, hcr]
  · intro h1 h2
    simp [setup_chromadb, setup_fallback, h1, h2]

theorem c4_open_or_create_amended_witness :
    (setup_chromadb allOkEnv storedState).1 = some [] :=
  (c4_open_or_create_amended allOkEnv storedState).1 rfl rfl rfl rfl

/-- C5: the guarded insert loads the chunks only into a collection that
currently holds zero chunks, giving chunk `i` the positional id
`chunk_i`; a collection already holding at least one chunk is left
unchanged, and the operation is idempotent at the collection level. -/
theorem c5_bulk_insert_idempotent (col : List ChromaEntry) (chunks : List (List Char)) :
    (col = [] →
        (bulk_insert col chunks).length = chunks.length
        ∧ ∀ i (hi : i < chunks.length),
            (bulk_insert col chunks)[i]? = some ("chunk_" ++ toString i, chunks[i]))
    ∧ (col ≠ [] → bulk_insert col chunks = col)
    ∧ bulk_insert (bulk_insert col chunks) chunks = bulk_insert col chunks := by
  refine ⟨?_, fun h => bulk_insert_of_ne_nil col chunks h, ?_⟩
  · intro hcol
    subst hcol
    refine ⟨bulk_insert_nil_length chunks, ?_⟩
    intro i hi
    have heq : bulk_insert ([] : List ChromaEntry) chunks
        = ((List.range chunks.length).map (fun i => "chunk_" ++ toString i)).zip chunks := by
      simp [bulk_insert]
    rw [heq, zip_entry _ chunks i (by simpa using hi) hi,
      List.getElem_map, List.getElem_range]
  · rcases hcol : col with _ | ⟨e, col2⟩
    · by_cases hch : chunks = []
      · subst hch; rfl
      · have h1 : (bulk_insert [] chunks).length = chunks.length :=
          bulk_insert_nil_length chunks
        have h2 : bulk_insert [] chunks ≠ [] := by
          intro hE
          rw [hE] at h1
          exact hch (List.length_eq_zero.mp h1.symm)
        exact bulk_insert_of_ne_nil _ chunks h2
    · have h := bulk_insert_of_ne_nil (e :: col2) chunks (by simp)
      rw [h]
      exact h

theorem c5_bulk_insert_idempotent_witness :
    ([] : List ChromaEntry) = []
    ∧ (bulk_insert [] [['h', 'i'], ['y', 'o']])[1]? = some ("chunk_1", ['y', 'o']) :=
  ⟨rfl, ((c5_bulk_insert_idempotent [] [['h', 'i'], ['y', 'o']]).1 rfl).2 1 (by decide)⟩

/-- C6: the context-building step joins the returned chunk texts with
newline separators, and yields exactly the empty string — never null,
never an exception — when the collection handle is unavailable, the
query raises, or the collection is empty (so the query can only return
empty document lists). -/
theorem c6_retrieve_empty (q : QueryOutcome) :
    retrieve_context false q = ""
    ∧ (∀ m, retrieve_context true (QueryOutcome.err m) = "")
    ∧ (∀ (stored : List String) (docs : List (List String)),
        (∀ d ∈ docs, ∀ s ∈ d, s ∈ stored) → stored = [] →
        retrieve_context true (QueryOutcome.ok docs) = "")
    ∧ (∀ d0 rest, d0 ≠ [] →
        retrieve_context true (QueryOutcome.ok (d0 :: rest)) =
          String.intercalate "\n" d0) := by
  refine ⟨rfl, fun m => rfl, ?_, ?_⟩
  · intro stored docs hsub hst
    subst hst
    cases docs with
    | nil => rfl
    | cons d0 rest =>
      have hd0 : d0 = [] := by
        cases d0 with
        | nil => rfl
        | cons x xs =>
          exact absurd (hsub (x :: xs) (by simp) x (by simp)) (by simp)
      subst hd0
      rfl
  · intro d0 rest h
    simp [retrieve_context, h]

theorem c6_retrieve_empty_witness :
    (["Andean athlete", "likes hiking"] : List String) ≠ []
    ∧ retrieve_context true
        (QueryOutcome.ok [["Andean athlete", "likes hiking"]]) =
        String.intercalate "\n" ["Andean athlete", "likes hiking"] :=
  ⟨by decide,
    (c6_retrieve_empty (QueryOutcome.ok [["Andean athlete", "likes hiking"]])).2.2.2
      ["Andean athlete", "likes hiking"] [] (by decide)⟩

/-- C7: the system messages built for empty and non-empty context share
the same fixed persona framing and differ only in the appended clause —
the literal context text for a non-empty context and the
general-knowledge fallback for an empty one — and do not depend on the
question (which only fills the user message). -/
theorem c7_system_message (question ctx : String) (hctx : ctx ≠ "") :
    (ask_deepseek_payload question "").system_content
        = persona_base ++ no_context_clause
    ∧ (ask_deepseek_payload question ctx).system_content
        = persona_base ++ (" Context: " ++ ctx)
    ∧ (∀ q1 q2 c, (ask_deepseek_payload q1 c).system_content
        = (ask_deepseek_payload q2 c).system_content) := by
  refine ⟨?_, ?_, fun q1 q2 c => rfl⟩
  · simp [ask_deepseek_payload, compose_system_content]
  · simp [ask_deepseek_payload, compose_system_content, hctx]

theorem c7_system_message_witness :
    ("I like hiking." : String) ≠ ""
    ∧ (ask_deepseek_payload "Who are you?" "").system_content
        = persona_base ++ no_context_clause
    ∧ (ask_deepseek_payload "Who are you?" "I like hiking.").system_content
        = persona_base ++ (" Context: " ++ "I like hiking.") :=
  ⟨by decide,
    (c7_system_message "Who are you?" "I like hiking." (by decide)).1,
    (c7_system_message "Who are you?" "I like hiking." (by decide)).2.1⟩

/-- C8 counterexample: with the credential still set to the placeholder
value, `ask_deepseek` does NOT short-circuit — its guard is only
`not api_key` (`app.py` line 220), the placeholder string is truthy, so
the remote completion request is issued with the bad credential and the
configuration-error string is never returned. -/
theorem c8_placeholder_counterexample :
    ask_deepseek_request (some placeholder_api_key) "Who are you?" "" =
      some (ask_deepseek_payload "Who are you?" "")
    ∧ ask_deepseek (some placeholder_api_key) "Who are you?" ""
        (HttpOutcome.resp 401 ⟨Except.error "KeyError", "Authentication Fails"⟩)
        ≠ "Error: API key not configured. Please check your .env file." :=
  ⟨rfl, by decide⟩

/-- C8 amended: only a missing or empty credential makes `ask_deepseek`
return the configuration-error string without issuing the remote
request.  A credential still set to the placeholder is flagged only by
the startup check `load_environment` (which returns false); the answer
operation nevertheless issues the remote request with it, and the
resulting failure (a 401) is surfaced as a response string, never
raised. -/
theorem c8_credential_amended (apiKey : Option String) (q ctx : String)
    (out : HttpOutcome) :
    (api_key_missing apiKey = true →
        ask_deepseek_request apiKey q ctx = none
        ∧ ask_deepseek apiKey q ctx out =
            "Error: API key not configured. Please check your .env file.")
    ∧ load_environment_ok (some placeholder_api_key) = false
    ∧ ask_deepseek_request (some placeholder_api_key) q ctx =
        some (ask_deepseek_payload q ctx)
    ∧ (∀ body, ask_deepseek (some placeholder_api_key) q ctx
        (HttpOutcome.resp 401 body) =
        "API Error: Status 401 - Invalid API key. Please check your DEEPSEEK_API_KEY in .env file.") := by
  refine ⟨?_, rfl, rfl, ?_⟩
  · intro h
    exact ⟨by simp [ask_deepseek_request, h], by simp [ask_deepseek, h]⟩
  · intro body
    simp [ask_deepseek, api_key_missing, placeholder_api_key]
    rfl

theorem c8_credential_amended_witness :
    api_key_missing none = true
    ∧ ask_deepseek none "Who are you?" "" (HttpOutcome.exn "timeout") =
        "Error: API key not configured. Please check your .env file." :=
  ⟨rfl, ((c8_credential_amended none "Who are you?" ""
    (HttpOutcome.exn "timeout")).1 rfl).2⟩

/-- C9: resetting the knowledge base and immediately re-ingesting a
document reproduces its chunk count; a 2500-character document with no
whitespace-only slice, chunked at size 1000, yields exactly 3 stored
chunks. -/
theorem c9_reset_reingest (env : StoreEnv) (st : ChromaState) (content : List Char)
    (h1 : env.rmtreeOk = true) (h2 : env.clientOk = true) (h3 : env.createOk = true)
    (hinv : st.dbExists = false → st.collection = none)
    (hlen : content.length = 2500)
    (hnb : ∀ c ∈ rawChunks content 1000, pyIsBlank c = false) :
    (reset_chroma env st (some content)).1 = true
    ∧ ∃ col, (reset_chroma env st (some content)).2.1 = some col
        ∧ col.length = (chunk content 1000).length
        ∧ col.length = 3 := by
  have hcount : (rawChunks content 1000).length = 3 := by
    rw [rawChunks_length, hlen]
  have hfil : chunk content 1000 = rawChunks content 1000 := by
    unfold chunk
    refine List.filter_eq_self.mpr ?_
    intro a ha
    simp [hnb a ha]
  have hblank : pyIsBlank content = false := by
    rcases h0 : pyIsBlank content with _ | _
    · rfl
    · exfalso
      have hne : rawChunks content 1000 ≠ [] := by
        intro hE
        rw [hE] at hcount
        simp at hcount
      obtain ⟨c0, hc0⟩ := List.exists_mem_of_ne_nil _ hne
      have hb0 : pyIsBlank c0 = true := by
        obtain ⟨i, hi, hci⟩ := List.mem_map.mp hc0
        apply List.all_eq_true.mpr
        intro x hx
        have hx1 : x ∈ content := by
          rw [← hci] at hx
          simp only [pySlice] at hx
          exact List.mem_of_mem_drop (List.mem_of_mem_take hx)
        exact List.all_eq_true.mp h0 x hx1
      rw [hnb c0 hc0] at hb0
      exact Bool.false_ne_true hb0
  have hlen2 : (bulk_insert [] (chunk content 1000)).length = (chunk content 1000).length :=
    bulk_insert_nil_length _
  obtain ⟨db, col⟩ := st
  cases db with
  | false =>
    have hc : col = none := hinv rfl
    subst hc
    refine ⟨?_, bulk_insert [] (chunk content 1000), ?_, ?_, ?_⟩
    · simp [reset_chroma, setup_chromadb, h1, h2, h3, load_document_to_chroma, hblank]
    · simp [reset_chroma, setup_chromadb, h1, h2, h3, load_document_to_chroma, hblank]
    · exact hlen2
    · rw [hlen2, hfil, hcount]
  | true =>
    refine ⟨?_, bulk_insert [] (chunk content 1000), ?_, ?_, ?_⟩
    · simp [reset_chroma, setup_chromadb, h1, h2, h3, load_document_to_chroma, hblank]
    · simp [reset_chroma, setup_chromadb, h1, h2, h3, load_document_to_chroma, hblank]
    · exact hlen2
    · rw [hlen2, hfil, hcount]

theorem c9_reset_reingest_witness :
    ∃ col, (reset_chroma allOkEnv ⟨false, none⟩
        (some (List.replicate 2500 'a'))).2.1 = some col
      ∧ col.length = (chunk (List.replicate 2500 'a') 1000).length
      ∧ col.length = 3 :=
  (c9_reset_reingest allOkEnv ⟨false, none⟩ (List.replicate 2500 'a')
    rfl rfl rfl (fun _ => rfl) (by rw [List.length_replicate])
    (by
      intro c hc
      have hne : c ≠ [] :=
        rawChunks_mem_ne_nil (List.replicate 2500 'a') 1000 (by omega) c hc
      have hsub : ∀ x ∈ c, x ∈ List.replicate 2500 'a' :=
        rawChunks_mem_subset (List.replicate 2500 'a') 1000 c hc
      rcases c with _ | ⟨x, xs⟩
      · exact absurd rfl hne
      · have hx : x = 'a' := List.eq_of_mem_replicate (hsub x (by simp))
        subst hx
        simp [pyIsBlank, pyIsSpace])).2

/-- C10: a non-empty whitespace-only question (such as a single space)
is not treated as missing — Python truthiness only catches the empty
string, so the chat operation proceeds to retrieval and the remote call
and reports `success = true`. -/
theorem c10_whitespace_question (q : String) (hq : q ≠ "")
    (hws : ∀ c ∈ q.data, pyIsSpace c = true)
    (avail : Bool) (qo : QueryOutcome) (apiKey : Option String) (out : HttpOutcome) :
    chat (some q) avail qo apiKey out =
      (ask_deepseek apiKey q (retrieve_context avail qo) out, true) := by
  simp [chat, hq]

theorem c10_whitespace_question_witness :
    (" " : String) ≠ ""
    ∧ chat (some " ") false (QueryOutcome.ok []) (some "sk-test")
        (HttpOutcome.resp 200 ⟨Except.ok "I am Andy.", "ok"⟩) =
      (ask_deepseek (some "sk-test") " " (retrieve_context false (QueryOutcome.ok []))
        (HttpOutcome.resp 200 ⟨Except.ok "I am Andy.", "ok"⟩), true) :=
  ⟨by decide,
    c10_whitespace_question " " (by decide) (by decide) false (QueryOutcome.ok [])
      (some "sk-test") (HttpOutcome.resp 200 ⟨Except.ok "I am Andy.", "ok"⟩)⟩

end AskAndy
